import Mathlib

/-!
# Verification of the Syntra SDK core (packages/sdk-python/syntra)

A shallow embedding, in Lean 4, of the parts of the Syntra Python SDK that
carry its correctness claims: the W3C trace-context codec (`tracing/context.py`),
the span lifecycle (`tracing/span.py`), the tracer with its active-span
registry (`tracing/tracer.py`), the scope/breadcrumb store (`scope.py`) and the
transport batching and retry logic (`transport/base.py`).

Python strings are modelled as `List Char`; Python `dict`s as insertion-ordered
association lists with update-in-place semantics; external effects (clock
readings, random draws, generated ids, network sends) are explicit parameters
or observable logs.  Machine integers do not occur: Python integers are
unbounded, so `Nat`/`Int` are exact; the two floating-point comparisons of the
sampler (`rate >= 1`, `rate <= 0`) and of the back-off computation
(`min(1.0 * 2 ** attempt, 10.0)`) are exact on every value that can reach
them, so `ℚ` is used for those quantities.
-/

namespace Syntra

/-- Python `str`, modelled as its list of characters. -/
abbrev Str := List Char

/-! ## Python primitives used by `context.py` -/

/-- The characters Python's `str.strip()` / `int(...)` remove as whitespace
(ASCII fragment; every string handled by the codec is ASCII). -/
def isPyWhitespace (c : Char) : Bool :=
  c = ' ' || c = '\t' || c = '\n' || c = '\r' || c = '\x0b' || c = '\x0c'

/-- Python `str.strip()` with no argument: drop whitespace at both ends. -/
def pyStrip (s : Str) : Str :=
  ((s.dropWhile isPyWhitespace).reverse.dropWhile isPyWhitespace).reverse

/-- Membership in the regex character class `[0-9a-f]` compiled with
`re.IGNORECASE`, i.e. an ASCII hex digit of either case. -/
def isHexDigitChar (c : Char) : Bool :=
  ('0'.toNat ≤ c.toNat && c.toNat ≤ '9'.toNat) ||
  ('a'.toNat ≤ c.toNat && c.toNat ≤ 'f'.toNat) ||
  ('A'.toNat ≤ c.toNat && c.toNat ≤ 'F'.toNat)

/-- Numeric value of a hex digit. -/
def hexDigitVal (c : Char) : Nat :=
  if '0'.toNat ≤ c.toNat && c.toNat ≤ '9'.toNat then c.toNat - '0'.toNat
  else if 'a'.toNat ≤ c.toNat && c.toNat ≤ 'f'.toNat then c.toNat - 'a'.toNat + 10
  else c.toNat - 'A'.toNat + 10

/-- Truth value of `re.match(r"^[0-9a-f]{n}$", s, re.IGNORECASE)`:
`n` hex digits from the start of the string, then `$`.  Python's `$` matches
at the end of the string or just before a newline that is the last character,
so a single trailing `'\n'` after the `n` digits is also accepted. -/
def pyMatchHexN (n : Nat) (s : Str) : Bool :=
  ((s.take n).length = n && (s.take n).all isHexDigitChar) &&
    (s.length = n || (s.length = n + 1 && s.getLast? = some '\n'))

/-- Hex digits with CPython's underscore rule (one `_` allowed between two
digits), accumulating into `acc`; the caller ensures the first character is a
digit.  Mirrors the digit grammar accepted by `int(s, 16)`. -/
def hexDigitsUndAux (acc : Nat) : Str → Option Nat
  | [] => some acc
  | c :: rest =>
    if c = '_' then
      match rest with
      | [] => none
      | c2 :: _ => if isHexDigitChar c2 then hexDigitsUndAux acc rest else none
    else if isHexDigitChar c then
      hexDigitsUndAux (acc * 16 + hexDigitVal c) rest
    else none

/-- A nonempty run of hex digits (with internal underscores), starting with a
digit. -/
def pyIntHexDigits (s : Str) : Option Nat :=
  match s with
  | [] => none
  | c :: _ => if isHexDigitChar c then hexDigitsUndAux 0 s else none

/-- The unsigned part of Python `int(s, 16)`: an optional `0x`/`0X` prefix
(an underscore may directly follow the prefix), then hex digits. -/
def pyIntHexUnsigned (s : Str) : Option Nat :=
  match s with
  | c0 :: c1 :: r =>
    if c0 = '0' && (c1 = 'x' || c1 = 'X') then
      match r with
      | c2 :: r2 => if c2 = '_' then pyIntHexDigits r2 else pyIntHexDigits r
      | [] => pyIntHexDigits []
    else pyIntHexDigits (c0 :: c1 :: r)
  | _ => pyIntHexDigits s

/-- Shallow embedding of Python `int(s, 16)`: surrounding whitespace is
stripped, then an optional sign, then the unsigned hex literal.  `none` models
the `ValueError` raised on malformed input. -/
def pyIntHex (s : Str) : Option Int :=
  match pyStrip s with
  | [] => none
  | c :: r =>
    if c = '+' then (pyIntHexUnsigned r).map Int.ofNat
    else if c = '-' then (pyIntHexUnsigned r).map (fun n => -(n : Int))
    else (pyIntHexUnsigned (c :: r)).map Int.ofNat

/-- Python `str.lower` on one character (ASCII fragment). -/
def pyLowerChar (c : Char) : Char :=
  if 'A'.toNat ≤ c.toNat && c.toNat ≤ 'Z'.toNat then Char.ofNat (c.toNat + 32)
  else c

/-- Python `str.lower` (ASCII fragment). -/
def pyLower (s : Str) : Str := s.map pyLowerChar

/-- A lowercase ASCII hex digit (used to state which contexts are valid for
the round-trip law). -/
def isLowerHexDigit (c : Char) : Bool :=
  ('0'.toNat ≤ c.toNat && c.toNat ≤ '9'.toNat) ||
  ('a'.toNat ≤ c.toNat && c.toNat ≤ 'f'.toNat)

/-! ## `tracing/context.py` -/

/-- `TRACE_FLAG_NONE` (context.py line 13). -/
def TRACE_FLAG_NONE : Int := 0x00

/-- `TRACE_FLAG_SAMPLED` (context.py line 14). -/
def TRACE_FLAG_SAMPLED : Int := 0x01

/-- The `SpanContext` dataclass (context.py lines 17-24). -/
@[ext]
structure SpanContext where
  trace_id : Str
  span_id : Str
  trace_flags : Int := TRACE_FLAG_SAMPLED
  trace_state : Option Str := none
deriving DecidableEq, Repr

/-- Shallow embedding of `parse_traceparent` (context.py lines 43-85).
`none` is the Python `None` result; no exception escapes the source function
(the only fallible call, `int(flags_hex, 16)`, is wrapped in `try`). -/
def parse_traceparent (header : Str) : Option SpanContext :=
  if header.isEmpty then none
  else
    match (pyStrip header).splitOn '-' with
    | [version, trace_id, span_id, flags_hex] =>
      if version ≠ ("00".toList) then none
      else if ¬ pyMatchHexN 32 trace_id then none
      else if trace_id = List.replicate 32 '0' then none
      else if ¬ pyMatchHexN 16 span_id then none
      else if span_id = List.replicate 16 '0' then none
      else
        match pyIntHex flags_hex with
        | none => none
        | some trace_flags =>
          some { trace_id := pyLower trace_id, span_id := pyLower span_id,
                 trace_flags := trace_flags, trace_state := none }
    | _ => none

/-- Python `format(i, "02x")` as used by `create_traceparent`: lowercase hex,
zero-padded on the left to overall width 2 (a minus sign counts toward the
width). -/
def hexChar (n : Nat) : Char :=
  if n < 10 then Char.ofNat ('0'.toNat + n) else Char.ofNat ('a'.toNat + (n - 10))

/-- Lowercase hex digits of `n`, most significant first. -/
def natToHex (n : Nat) : Str :=
  if _h : n < 16 then [hexChar n]
  else natToHex (n / 16) ++ [hexChar (n % 16)]
decreasing_by exact Nat.div_lt_self (by omega) (by omega)

/-- Left-pad with `c` to length `w`. -/
def leftPad (c : Char) (w : Nat) (s : Str) : Str :=
  List.replicate (w - s.length) c ++ s

/-- Python `f"{i:02x}"`. -/
def formatHex02 (i : Int) : Str :=
  if i < 0 then '-' :: leftPad '0' 1 (natToHex (-i).toNat)
  else leftPad '0' 2 (natToHex i.toNat)

/-- Shallow embedding of `create_traceparent` (context.py lines 88-92). -/
def create_traceparent (context : SpanContext) : Str :=
  ("00".toList) ++ '-' :: context.trace_id ++ '-' :: context.span_id ++
    '-' :: formatHex02 context.trace_flags

/-- A Python header dict (case-sensitive keys, insertion order kept). -/
abbrev Headers := List (Str × Str)

/-- Python `d[k] = v` on an association list: replace in place, else append. -/
def dictSet {β : Type} (k : Str) (v : β) : List (Str × β) → List (Str × β)
  | [] => [(k, v)]
  | (k', v') :: rest =>
    if k' = k then (k', v) :: rest else (k', v') :: dictSet k v rest

/-- Python `d.get(k)` on an association list. -/
def dictGet? {β : Type} (k : Str) : List (Str × β) → Option β
  | [] => none
  | (k', v') :: rest => if k' = k then some v' else dictGet? k rest

/-- Shallow embedding of `inject_trace_context` (context.py lines 131-140),
with the ambient context passed explicitly (`ambient` is the value the
`_current_context` context variable holds at the call). -/
def inject_trace_context (headers : Headers) (context : Option SpanContext)
    (ambient : Option SpanContext) : Headers :=
  match context.orElse (fun _ => ambient) with
  | none => headers
  | some ctx =>
    let headers := dictSet ("traceparent".toList) (create_traceparent ctx) headers
    match ctx.trace_state with
    | some state => dictSet ("tracestate".toList) state headers
    | none => headers

/-! ## `types.py`: the value types used by spans -/

/-- `SpanKind` (types.py lines 31-38). -/
inductive SpanKind
  | internal | server | client | producer | consumer
deriving DecidableEq, Repr

/-- `SpanStatusCode` (types.py lines 41-46). -/
inductive SpanStatusCode
  | unset | ok | error
deriving DecidableEq, Repr

/-- `SpanStatus` (types.py lines 94-99). -/
structure SpanStatus where
  code : SpanStatusCode := .unset
  message : Option Str := none
deriving DecidableEq, Repr

/-- A span attribute value, `str | int | float | bool`.  Floats are carried
opaquely (as exact rationals); the SDK never computes with attribute values. -/
inductive AttrValue
  | str (s : Str)
  | int (i : Int)
  | float (q : ℚ)
  | bool (b : Bool)
deriving DecidableEq, Repr

/-- An attribute dict `dict[str, str | int | float | bool]`. -/
abbrev Attrs := List (Str × AttrValue)

/-- Python `d.update(other)` on association lists. -/
def dictUpdate {β : Type} (d other : List (Str × β)) : List (Str × β) :=
  other.foldl (fun d kv => dictSet kv.1 kv.2 d) d

/-- Python `d.pop(k, None)` (the removal effect) on an association list. -/
def dictPop {β : Type} (k : Str) (d : List (Str × β)) : List (Str × β) :=
  d.filter (fun kv => kv.1 ≠ k)

/-- `SpanEvent` (types.py lines 144-150). -/
structure SpanEvent where
  name : Str
  timestamp_ns : Nat
  attributes : Attrs := []
deriving DecidableEq, Repr

/-- `TelemetrySpan` (types.py lines 224-239). -/
structure TelemetrySpan where
  trace_id : Str
  span_id : Str
  service_id : Str
  deployment_id : Str
  operation_name : Str
  span_kind : SpanKind
  start_time_ns : Nat
  duration_ns : Int
  status : SpanStatus
  attributes : Attrs
  events : List SpanEvent
  parent_span_id : Option Str := none
deriving DecidableEq, Repr

/-! ## `tracing/span.py` -/

/-- The mutable state of a `SpanImpl` object (span.py lines 96-117). -/
structure SpanImpl where
  _name : Str
  _kind : SpanKind
  _trace_id : Str
  _span_id : Str
  _parent_span_id : Option Str
  _start_time_ns : Nat
  _end_time_ns : Option Nat
  _status : SpanStatus
  _attributes : Attrs
  _events : List SpanEvent
  _recording : Bool
deriving DecidableEq, Repr

/-- Python `x or y` for an optional string `x`: `None` and the empty string
both fall through to `y`. -/
def pyOrStr (x : Option Str) (y : Str) : Str :=
  match x with
  | some s => if s.isEmpty then y else s
  | none => y

/-- `SpanImpl.__init__` (span.py lines 99-117).  `fresh_trace_id` is the value
`generate_trace_id()` would return, `fresh_span_id` the value of
`generate_span_id()`, and `now` the reading of `time.time_ns()`. -/
def SpanImpl.init (name : Str) (kind : SpanKind) (trace_id : Option Str)
    (parent_span_id : Option Str) (attributes : Option Attrs)
    (fresh_trace_id fresh_span_id : Str) (now : Nat) : SpanImpl :=
  { _name := name
    _kind := kind
    _trace_id := pyOrStr trace_id fresh_trace_id
    _span_id := fresh_span_id
    _parent_span_id := parent_span_id
    _start_time_ns := now
    _end_time_ns := none
    _status := {}
    _attributes := match attributes with
      | some a => if a.isEmpty then [] else a
      | none => []
    _events := []
    _recording := true }

/-- `SpanImpl.duration_ns` (span.py lines 143-147): zero while the span has no
end time, else the (Python integer) difference. -/
def SpanImpl.duration_ns (s : SpanImpl) : Int :=
  match s._end_time_ns with
  | none => 0
  | some e => (e : Int) - (s._start_time_ns : Int)

/-- `SpanImpl.set_status` (span.py lines 161-164). -/
def SpanImpl.set_status (s : SpanImpl) (code : SpanStatusCode)
    (message : Option Str) : SpanImpl :=
  if ¬ s._recording then s
  else { s with _status := { code := code, message := message } }

/-- `SpanImpl.set_attribute` (span.py lines 166-169). -/
def SpanImpl.set_attribute (s : SpanImpl) (key : Str) (value : AttrValue) :
    SpanImpl :=
  if ¬ s._recording then s
  else { s with _attributes := dictSet key value s._attributes }

/-- `SpanImpl.set_attributes` (span.py lines 171-174). -/
def SpanImpl.set_attributes (s : SpanImpl) (attrs : Attrs) : SpanImpl :=
  if ¬ s._recording then s
  else { s with _attributes := dictUpdate s._attributes attrs }

/-- `SpanImpl.add_event` (span.py lines 176-187); `now` is the reading of
`time.time_ns()`. -/
def SpanImpl.add_event (s : SpanImpl) (name : Str) (attributes : Option Attrs)
    (now : Nat) : SpanImpl :=
  if ¬ s._recording then s
  else
    { s with _events := s._events ++
        [{ name := name, timestamp_ns := now,
           attributes := match attributes with
             | some a => if a.isEmpty then [] else a
             | none => [] }] }

/-- `SpanImpl.end` (span.py lines 189-193); `end` is a Lean keyword, hence the
name.  `now` is the reading of `time.time_ns()`. -/
def SpanImpl.endSpan (s : SpanImpl) (now : Nat) : SpanImpl :=
  if ¬ s._recording then s
  else { s with _end_time_ns := some now, _recording := false }

/-- `SpanImpl.is_recording` (span.py lines 195-196). -/
def SpanImpl.is_recording (s : SpanImpl) : Bool := s._recording

/-- `SpanImpl.span_context` (span.py lines 198-203). -/
def SpanImpl.span_context (s : SpanImpl) : SpanContext :=
  { trace_id := s._trace_id, span_id := s._span_id,
    trace_flags := TRACE_FLAG_SAMPLED, trace_state := none }

/-- `SpanImpl.to_telemetry_span` (span.py lines 205-220). -/
def SpanImpl.to_telemetry_span (s : SpanImpl) (service_id deployment_id : Str) :
    TelemetrySpan :=
  { trace_id := s._trace_id
    span_id := s._span_id
    parent_span_id := s._parent_span_id
    service_id := service_id
    deployment_id := deployment_id
    operation_name := s._name
    span_kind := s._kind
    start_time_ns := s._start_time_ns
    duration_ns := s.duration_ns
    status := s._status
    attributes := s._attributes
    events := s._events }

/-- The state of a `NoopSpan` object (span.py lines 223-229). -/
structure NoopSpan where
  _trace_id : Str
  _span_id : Str
  _name : Str
deriving DecidableEq, Repr

/-- `NoopSpan.__init__` (span.py lines 226-229). -/
def NoopSpan.init (context : Option SpanContext)
    (fresh_trace_id fresh_span_id : Str) : NoopSpan :=
  { _trace_id := match context with
      | some c => c.trace_id
      | none => fresh_trace_id
    _span_id := match context with
      | some c => c.span_id
      | none => fresh_span_id
    _name := "noop".toList }

/-- `NoopSpan.parent_span_id` (span.py lines 239-241): always `None`. -/
def NoopSpan.parent_span_id (_ : NoopSpan) : Option Str := none

/-- `NoopSpan.is_recording` (span.py lines 264-265). -/
def NoopSpan.is_recording (_ : NoopSpan) : Bool := false

/-- `NoopSpan.span_context` (span.py lines 267-272). -/
def NoopSpan.span_context (n : NoopSpan) : SpanContext :=
  { trace_id := n._trace_id, span_id := n._span_id,
    trace_flags := 0, trace_state := none }

/-- A span handle, either recording or no-op (the two concrete subclasses of
the abstract `Span`). -/
inductive Span
  | impl (s : SpanImpl)
  | noop (n : NoopSpan)
deriving DecidableEq, Repr

/-- Dynamic dispatch of `is_recording`. -/
def Span.is_recording : Span → Bool
  | .impl s => s.is_recording
  | .noop n => n.is_recording

/-- Dynamic dispatch of `span_context`. -/
def Span.span_context : Span → SpanContext
  | .impl s => s.span_context
  | .noop n => n.span_context

/-! ## `tracing/tracer.py`

The tracer's mutable state: its private fields together with the
`_current_context` context variable of `context.py` (one logical execution
context is modelled, which is all the claims quantify over). -/

structure Tracer where
  service_id : Str
  deployment_id : Str
  sample_rate : ℚ
  debug : Bool := false
  _active_spans : List (Str × SpanImpl) := []
  _finished_spans : List TelemetrySpan := []
  /-- The `_current_context` context variable (context.py lines 28-30). -/
  current_context : Option SpanContext := none
deriving DecidableEq, Repr

/-- `Tracer._should_sample` (tracer.py lines 141-153); `r` is the draw of
`random.random()` (uniform on `[0,1)`). -/
def Tracer._should_sample (t : Tracer) (r : ℚ) : Bool :=
  if t.sample_rate ≥ 1 then true
  else if t.sample_rate ≤ 0 then false
  else
    match t.current_context with
    | some context =>
      if Int.land context.trace_flags TRACE_FLAG_SAMPLED ≠ 0 then true
      else decide (r < t.sample_rate)
    | none => decide (r < t.sample_rate)

/-- `Tracer.start_span` (tracer.py lines 47-86).  `r` is the `random.random()`
draw, `fresh_trace_id`/`fresh_span_id` the values of the id generators, and
`now` the clock reading; the span handle and the updated state are returned. -/
def Tracer.start_span (t : Tracer) (name : Str) (op : Option Str)
    (kind : SpanKind) (attributes : Option Attrs) (parent_span : Option Span)
    (r : ℚ) (fresh_trace_id fresh_span_id : Str) (now : Nat) : Span × Tracer :=
  if ¬ t._should_sample r then
    (Span.noop (NoopSpan.init none fresh_trace_id fresh_span_id), t)
  else
    let parent_context : Option SpanContext :=
      match parent_span with
      | some p => some p.span_context
      | none => t.current_context
    let span := SpanImpl.init name kind (parent_context.map (·.trace_id))
      (parent_context.map (·.span_id)) attributes fresh_trace_id fresh_span_id
      now
    let span := match op with
      | some o => if o.isEmpty then span
                  else span.set_attribute ("syntra.op".toList) (.str o)
      | none => span
    (Span.impl span,
     { t with _active_spans := dictSet span._span_id span t._active_spans
              current_context := some span.span_context })

/-- `Tracer.get_active_span` (tracer.py lines 88-93). -/
def Tracer.get_active_span (t : Tracer) : Option SpanImpl :=
  match t.current_context with
  | none => none
  | some context => dictGet? context.span_id t._active_spans

/-- `Tracer.on_span_end` (tracer.py lines 95-116).  The threshold-triggered
background flush task (lines 114-116) only dispatches network I/O and does not
touch the registry or the context; it is not part of this state transition. -/
def Tracer.on_span_end (t : Tracer) (span : SpanImpl) : Tracer :=
  let active := dictPop span._span_id t._active_spans
  let ctx : Option SpanContext :=
    match span._parent_span_id with
    | some pid =>
      if pid.isEmpty then none
      else
        match dictGet? pid active with
        | some parent_span => some parent_span.span_context
        | none => none
    | none => none
  { t with _active_spans := active
           current_context := ctx
           _finished_spans := t._finished_spans ++
             [span.to_telemetry_span t.service_id t.deployment_id] }

/-! ## `transport/base.py` -/

/-- The state of a `BaseTransport` (base.py lines 7-30), specialised to the
fields the queueing claims touch.  `sent_batches` is not a Python attribute:
it is the observable log of the `_send_with_retry(kind, batch)` calls the
methods below make. -/
structure BaseTransport (α : Type) where
  max_batch_size : Nat := 100
  max_retries : Nat := 3
  _error_queue : List α := []
  _span_queue : List α := []
  _log_queue : List α := []
  sent_batches : List (Str × List α) := []
deriving DecidableEq

/-- `BaseTransport._flush_errors` (base.py lines 63-69). -/
def BaseTransport._flush_errors {α : Type} (t : BaseTransport α) :
    BaseTransport α :=
  if t._error_queue.isEmpty then t
  else
    let errors := t._error_queue.take t.max_batch_size
    { t with _error_queue := t._error_queue.drop t.max_batch_size
             sent_batches := t.sent_batches ++ [(("errors".toList), errors)] }

/-- `BaseTransport.send_error` (base.py lines 39-43). -/
def BaseTransport.send_error {α : Type} (t : BaseTransport α) (error : α) :
    BaseTransport α :=
  let t := { t with _error_queue := t._error_queue ++ [error] }
  if t._error_queue.length ≥ t.max_batch_size then t._flush_errors else t

/-- The back-off delay slept after failed attempt number `attempt`
(base.py line 105): `min(1.0 * (2 ** attempt), 10.0)`, exact in `ℚ`. -/
def backoffDelay (attempt : Nat) : ℚ :=
  min ((1 : ℚ) * 2 ^ attempt) 10

/-- One pass of the retry loop of `_send_with_retry` (base.py lines 95-106)
over the remaining attempt numbers.  `succeeds i` tells whether the `i`-th
`send_payload` call returns normally (`false` models a raised exception, which
the loop catches).  Returns how many `send_payload` calls were made and the
delays slept between consecutive attempts, in order. -/
def sendRetryAux (max_retries : Nat) (succeeds : Nat → Bool) :
    List Nat → Nat × List ℚ
  | [] => (0, [])
  | attempt :: rest =>
    if succeeds attempt then (1, [])
    else
      let r := sendRetryAux max_retries succeeds rest
      if attempt < max_retries - 1 then (r.1 + 1, backoffDelay attempt :: r.2)
      else (r.1 + 1, r.2)

/-- `BaseTransport._send_with_retry` (base.py lines 87-109), as the trace of
its external behaviour: the loop body runs for `attempt in range(max_retries)`
and the function itself always returns `None` to its caller (every exception
from `send_payload` is caught; after the loop the failure is at most logged). -/
def _send_with_retry (max_retries : Nat) (succeeds : Nat → Bool) :
    Nat × List ℚ :=
  sendRetryAux max_retries succeeds (List.range max_retries)

/-! ## `scope.py` and the breadcrumb types of `types.py`

Scopes hold references to mutable Python objects (a breadcrumb's `data` dict,
nested values inside `extra`/`user`).  To make sharing observable, those
mutable dicts live in an explicit heap (`Heap`), and container values are
either immutable scalars or references (`Value.ref`) into it.  The scope's own
top-level containers (`tags`, `extra`, the breadcrumb list, `fingerprint`)
are carried inline, which models exactly what `dict(...)`/`list(...)` copy. -/

/-- `BreadcrumbType` (types.py lines 9-18). -/
inductive BreadcrumbType
  | http | navigation | ui | console | error | query | default
deriving DecidableEq, Repr

/-- `BreadcrumbLevel` (types.py lines 21-28). -/
inductive BreadcrumbLevel
  | debug | info | warning | error | fatal
deriving DecidableEq, Repr

/-- A Python value stored in a scope container: an immutable scalar or a
reference to a mutable dict on the heap. -/
inductive Value
  | str (s : Str)
  | int (i : Int)
  | bool (b : Bool)
  | ref (addr : Nat)
deriving DecidableEq, Repr

/-- The heap of mutable dict objects, addressed by index. -/
abbrev Heap := List (List (Str × Value))

/-- Write `cell[key] = v` at heap address `addr`. -/
def heapSet (h : Heap) (addr : Nat) (key : Str) (v : Value) : Heap :=
  h.set addr (dictSet key v (h.getD addr []))

/-- `Breadcrumb` (types.py lines 68-77).  `data` is `dict[str, Any] | None`:
an optional reference to a mutable dict. -/
structure Breadcrumb where
  type : BreadcrumbType
  category : Str
  timestamp : Str
  message : Option Str := none
  data : Option Nat := none
  level : BreadcrumbLevel := .info
deriving DecidableEq, Repr

/-- The state of a `Scope` (scope.py lines 20-33). -/
structure Scope where
  user : Option (List (Str × Value)) := none
  tags : List (Str × Str) := []
  extra : List (Str × Value) := []
  breadcrumbs : List Breadcrumb := []
  fingerprint : Option (List Str) := none
  _max_breadcrumbs : Nat := 100
deriving DecidableEq, Repr

/-- `Scope.set_tag` (scope.py lines 39-41). -/
def Scope.set_tag (s : Scope) (key : Str) (value : Str) : Scope :=
  { s with tags := dictSet key value s.tags }

/-- `Scope.set_extra` (scope.py lines 47-49). -/
def Scope.set_extra (s : Scope) (key : Str) (value : Value) : Scope :=
  { s with extra := dictSet key value s.extra }

/-- `Scope.set_user` (scope.py lines 35-37). -/
def Scope.set_user (s : Scope) (user : Option (List (Str × Value))) : Scope :=
  { s with user := user }

/-- `Scope.set_fingerprint` (scope.py lines 55-57). -/
def Scope.set_fingerprint (s : Scope) (fingerprint : List Str) : Scope :=
  { s with fingerprint := some fingerprint }

/-- The `while len(self.breadcrumbs) > self._max_breadcrumbs:
self.breadcrumbs.pop(0)` loop of `add_breadcrumb` (scope.py lines 79-80). -/
def ringTrim {α : Type} (maxLen : Nat) : List α → List α
  | [] => []
  | x :: rest =>
    if maxLen < (x :: rest).length then ringTrim maxLen rest else x :: rest

/-- `Scope.add_breadcrumb` (scope.py lines 59-80); `now_iso` is the formatted
`datetime.now(timezone.utc)` timestamp. -/
def Scope.add_breadcrumb (s : Scope) (type : BreadcrumbType) (category : Str)
    (message : Option Str) (data : Option Nat) (level : BreadcrumbLevel)
    (now_iso : Str) : Scope :=
  let breadcrumb : Breadcrumb :=
    { type := type, category := category, message := message, data := data,
      level := level, timestamp := now_iso }
  { s with breadcrumbs := ringTrim s._max_breadcrumbs
             (s.breadcrumbs ++ [breadcrumb]) }

/-- `Scope.clear` (scope.py lines 86-92). -/
def Scope.clear (s : Scope) : Scope :=
  { s with user := none, tags := [], extra := [], breadcrumbs := [],
           fingerprint := none }

/-- `Scope.clone` (scope.py lines 94-103).  `dict(...)`/`list(...)` copy the
top-level container and keep every nested reference, which is exactly copying
the inline containers of this model: references inside them stay shared. -/
def Scope.clone (s : Scope) : Scope :=
  { user := s.user
    tags := s.tags
    extra := s.extra
    breadcrumbs := s.breadcrumbs
    fingerprint := s.fingerprint
    _max_breadcrumbs := s._max_breadcrumbs }

/-- The Python statement `scope.breadcrumbs[i].data[key] = value`: a mutation
performed through one scope's view of a breadcrumb's `data` dict.  It writes
the heap cell the breadcrumb references; the scope record itself is
unchanged. -/
def Scope.write_breadcrumb_data (s : Scope) (h : Heap) (i : Nat) (key : Str)
    (v : Value) : Heap :=
  match s.breadcrumbs[i]? with
  | some b =>
    match b.data with
    | some addr => heapSet h addr key v
    | none => h
  | none => h

/-- A breadcrumb as an observer sees it: its fields with the `data` dict
dereferenced. -/
structure BreadcrumbView where
  type : BreadcrumbType
  category : Str
  timestamp : Str
  message : Option Str
  data : Option (List (Str × Value))
  level : BreadcrumbLevel
deriving DecidableEq, Repr

/-- Observe one breadcrumb under a heap. -/
def observeBreadcrumb (h : Heap) (b : Breadcrumb) : BreadcrumbView :=
  { type := b.type, category := b.category, timestamp := b.timestamp,
    message := b.message, data := b.data.map (fun addr => h.getD addr []),
    level := b.level }

/-- Observe one container value under a heap (dereferencing one level). -/
def observeValue (h : Heap) : Value → Value ⊕ List (Str × Value)
  | .ref addr => Sum.inr (h.getD addr [])
  | v => Sum.inl v

/-- The observable state of a scope under a heap: its containers with every
directly held reference dereferenced. -/
structure ScopeView where
  user : Option (List (Str × Value))
  tags : List (Str × Str)
  extra : List (Str × (Value ⊕ List (Str × Value)))
  breadcrumbs : List BreadcrumbView
  fingerprint : Option (List Str)
deriving DecidableEq, Repr

/-- Observe a scope under a heap. -/
def observeScope (h : Heap) (s : Scope) : ScopeView :=
  { user := s.user
    tags := s.tags
    extra := s.extra.map (fun kv => (kv.1, observeValue h kv.2))
    breadcrumbs := s.breadcrumbs.map (observeBreadcrumb h)
    fingerprint := s.fingerprint }

/-- The container-level mutators of `Scope`: the operations the class itself
offers.  Each rebinds or extends the scope's own containers; none of them
writes through a stored reference, so `apply` returns the heap unchanged
(that is read off the source of each method). -/
inductive ScopeOp
  | set_tag (key value : Str)
  | set_extra (key : Str) (value : Value)
  | set_user (user : Option (List (Str × Value)))
  | set_fingerprint (fingerprint : List Str)
  | add_breadcrumb (type : BreadcrumbType) (category : Str)
      (message : Option Str) (data : Option Nat) (level : BreadcrumbLevel)
      (now_iso : Str)
  | clear
deriving DecidableEq

/-- Run a container-level mutator against one scope, threading the heap. -/
def ScopeOp.apply (op : ScopeOp) (s : Scope) (h : Heap) : Scope × Heap :=
  match op with
  | .set_tag k v => (s.set_tag k v, h)
  | .set_extra k v => (s.set_extra k v, h)
  | .set_user u => (s.set_user u, h)
  | .set_fingerprint fp => (s.set_fingerprint fp, h)
  | .add_breadcrumb ty c m d l now => (s.add_breadcrumb ty c m d l now, h)
  | .clear => (s.clear, h)

/-- A concrete scope whose single breadcrumb's `data` dict lives at heap
address 0. -/
def sharedDataScope : Scope :=
  { breadcrumbs := [{ type := .http,
                      category := ("c".toList),
                      timestamp := ("t".toList),
                      message := none,
                      data := some 0,
                      level := .info }] }

/-- The matching concrete heap: cell 0 holds the breadcrumb's `data` dict. -/
def sharedDataHeap : Heap := [[(("k".toList), Value.int 1)]]

/-! ## Helper lemmas -/

@[simp]
theorem SpanImpl.is_recording_init (name : Str) (kind : SpanKind)
    (trace_id parent_span_id : Option Str) (attributes : Option Attrs)
    (ftid fsid : Str) (now : Nat) :
    (SpanImpl.init name kind trace_id parent_span_id attributes ftid fsid
      now).is_recording = true := rfl

@[simp]
theorem SpanImpl.is_recording_set_attribute (s : SpanImpl) (k : Str)
    (v : AttrValue) : (s.set_attribute k v).is_recording = s.is_recording := by
  unfold SpanImpl.set_attribute SpanImpl.is_recording
  split <;> rfl

@[simp]
theorem SpanImpl.is_recording_endSpan (s : SpanImpl) (now : Nat) :
    (s.endSpan now).is_recording = false := by
  unfold SpanImpl.endSpan SpanImpl.is_recording
  by_cases h : s._recording <;> simp [h]

theorem natToHex_one : natToHex 1 = ['1'] := by
  unfold natToHex
  decide

theorem formatHex02_one : formatHex02 1 = ['0', '1'] := by
  unfold formatHex02
  norm_num [natToHex_one, leftPad]

@[simp]
theorem Span.is_recording_impl (s : SpanImpl) :
    (Span.impl s).is_recording = s.is_recording := rfl

@[simp]
theorem Span.is_recording_noop (n : NoopSpan) :
    (Span.noop n).is_recording = false := rfl

theorem start_span_is_recording_of_sampled (t : Tracer) (name : Str)
    (op : Option Str) (kind : SpanKind) (attributes : Option Attrs)
    (parent_span : Option Span) (r : ℚ) (ftid fsid : Str) (now : Nat)
    (hs : t._should_sample r = true) :
    (t.start_span name op kind attributes parent_span r ftid fsid
      now).1.is_recording = true := by
  unfold Tracer.start_span
  rw [hs]
  cases op with
  | none => simp
  | some o => by_cases ho : o.isEmpty <;> simp [ho]

theorem start_span_is_recording_of_not_sampled (t : Tracer) (name : Str)
    (op : Option Str) (kind : SpanKind) (attributes : Option Attrs)
    (parent_span : Option Span) (r : ℚ) (ftid fsid : Str) (now : Nat)
    (hs : t._should_sample r = false) :
    (t.start_span name op kind attributes parent_span r ftid fsid
      now).1.is_recording = false := by
  unfold Tracer.start_span
  rw [hs]
  simp

/-! ## Claim C1: sampling precedence of `start_span` -/

/-- **C1.**  If the sampling rate is `≥ 1` the started span is recording; if
the rate is `≤ 0` it is never recording, whatever the ambient context; if the
rate lies strictly between 0 and 1 and the ambient context carries the sampled
flag, the started span is always recording (independently of the random
draw `r`). -/
theorem C1_sampling_precedence (t : Tracer) (name : Str) (op : Option Str)
    (kind : SpanKind) (attributes : Option Attrs) (parent_span : Option Span)
    (r : ℚ) (ftid fsid : Str) (now : Nat) :
    (1 ≤ t.sample_rate →
      (t.start_span name op kind attributes parent_span r ftid fsid
        now).1.is_recording = true)
    ∧ (t.sample_rate ≤ 0 →
      (t.start_span name op kind attributes parent_span r ftid fsid
        now).1.is_recording = false)
    ∧ (0 < t.sample_rate → t.sample_rate < 1 →
      ∀ ctx, t.current_context = some ctx →
        Int.land ctx.trace_flags TRACE_FLAG_SAMPLED ≠ 0 →
        (t.start_span name op kind attributes parent_span r ftid fsid
          now).1.is_recording = true) := by
  refine ⟨fun h => ?_, fun h => ?_, fun h0 h1 ctx hctx hflag => ?_⟩
  · exact start_span_is_recording_of_sampled _ _ _ _ _ _ _ _ _ _ (by
      unfold Tracer._should_sample
      rw [if_pos h])
  · exact start_span_is_recording_of_not_sampled _ _ _ _ _ _ _ _ _ _ (by
      unfold Tracer._should_sample
      rw [if_neg (by intro hge; exact absurd (le_trans hge h) (by norm_num)),
        if_pos h])
  · exact start_span_is_recording_of_sampled _ _ _ _ _ _ _ _ _ _ (by
      unfold Tracer._should_sample
      rw [if_neg (by intro hge; linarith), if_neg (by intro hle; linarith),
        hctx]
      simp [hflag])

/-- Witness for `C1_sampling_precedence`: rate 1 samples; rate 0 with a
sampled ambient context does not sample; rate 1/2 with a sampled ambient
context samples. -/
theorem C1_sampling_precedence_witness :
    (({ service_id := [], deployment_id := [], sample_rate := 1 } :
        Tracer).start_span ("a".toList) none .internal none none (1/2)
        ("t1".toList) ("s1".toList) 0).1.is_recording = true
    ∧ (({ service_id := [], deployment_id := [], sample_rate := 0,
          current_context := some ⟨"t".toList, "s".toList, 1, none⟩ } :
        Tracer).start_span ("a".toList) none .internal none none (1/2)
        ("t1".toList) ("s1".toList) 0).1.is_recording = false
    ∧ (({ service_id := [], deployment_id := [], sample_rate := 1/2,
          current_context := some ⟨"t".toList, "s".toList, 1, none⟩ } :
        Tracer).start_span ("a".toList) none .internal none none (3/4)
        ("t1".toList) ("s1".toList) 0).1.is_recording = true := by
  refine ⟨(C1_sampling_precedence _ _ _ _ _ _ _ _ _ _).1 (by norm_num),
    (C1_sampling_precedence _ _ _ _ _ _ _ _ _ _).2.1 (by norm_num),
    (C1_sampling_precedence _ _ _ _ _ _ _ _ _ _).2.2 (by norm_num) (by norm_num)
      _ rfl (by decide)⟩

/-! ## Claim C7: span end is irreversible and idempotent -/

/-- **C7.**  A freshly initialised span is recording; after `end()` a span is
not recording; a second `end()` is a no-op that leaves the whole state (in
particular `end_time` and `duration`) unchanged; and `set_status`,
`set_attribute`, `set_attributes` and `add_event` after `end()` leave the
span's state (in particular status, attributes and events) unchanged. -/
theorem C7_span_end_irreversible_idempotent (name : Str) (kind : SpanKind)
    (trace_id parent_span_id : Option Str) (attributes : Option Attrs)
    (ftid fsid : Str) (t0 : Nat) (s : SpanImpl) (t t' now : Nat)
    (code : SpanStatusCode) (msg : Option Str) (k : Str) (v : AttrValue)
    (attrs : Attrs) (ename : Str) (eattrs : Option Attrs) :
    (SpanImpl.init name kind trace_id parent_span_id attributes ftid fsid
        t0).is_recording = true
    ∧ (s.endSpan t).is_recording = false
    ∧ (s.endSpan t).endSpan t' = s.endSpan t
    ∧ ((s.endSpan t).endSpan t')._end_time_ns = (s.endSpan t)._end_time_ns
    ∧ ((s.endSpan t).endSpan t').duration_ns = (s.endSpan t).duration_ns
    ∧ (s.endSpan t).set_status code msg = s.endSpan t
    ∧ (s.endSpan t).set_attribute k v = s.endSpan t
    ∧ (s.endSpan t).set_attributes attrs = s.endSpan t
    ∧ (s.endSpan t).add_event ename eattrs now = s.endSpan t := by
  have hrec : (s.endSpan t)._recording = false := by
    unfold SpanImpl.endSpan
    by_cases h : s._recording <;> simp [h]
  have hend : (s.endSpan t).endSpan t' = s.endSpan t := by
    unfold SpanImpl.endSpan
    rw [SpanImpl.endSpan] at hrec
    by_cases h : s._recording <;> simp [h] at hrec ⊢
  refine ⟨rfl, by simp, hend, by rw [hend], by rw [hend], ?_, ?_, ?_, ?_⟩ <;>
    simp [SpanImpl.set_status, SpanImpl.set_attribute, SpanImpl.set_attributes,
      SpanImpl.add_event, hrec]

/-! ## Claim C10: propagation flags of recording and no-op spans -/

/-- **C10.**  A recording span's `span_context()` carries
`trace_flags = TRACE_FLAG_SAMPLED = 0x01` unconditionally, so injecting it
writes a `traceparent` header whose flags field is `"01"`; a no-op span's
`span_context()` carries `trace_flags = 0`, and its `parent_span_id` is
`None`. -/
theorem C10_propagation_flags (s : SpanImpl) (n : NoopSpan) (headers : Headers)
    (ambient : Option SpanContext) (h : s.is_recording = true) :
    (s.span_context.trace_flags = TRACE_FLAG_SAMPLED
      ∧ inject_trace_context headers (some s.span_context) ambient =
          dictSet ("traceparent".toList) (create_traceparent s.span_context)
            headers
      ∧ create_traceparent s.span_context =
          ("00".toList) ++ '-' :: s._trace_id ++ '-' :: s._span_id ++
            '-' :: ("01".toList))
    ∧ n.span_context.trace_flags = 0 ∧ n.parent_span_id = none := by
  refine ⟨⟨rfl, rfl, ?_⟩, rfl, rfl⟩
  simp [create_traceparent, SpanImpl.span_context, TRACE_FLAG_SAMPLED,
    formatHex02_one]

/-- Witness for `C10_propagation_flags` at a concrete recording span. -/
theorem C10_propagation_flags_witness :
    let s := SpanImpl.init ("job".toList) .internal none none none
      ("aa".toList) ("bb".toList) 5
    (s.span_context.trace_flags = TRACE_FLAG_SAMPLED
      ∧ inject_trace_context [] (some s.span_context) none =
          dictSet ("traceparent".toList) (create_traceparent s.span_context) []
      ∧ create_traceparent s.span_context =
          ("00".toList) ++ '-' :: s._trace_id ++ '-' :: s._span_id ++
            '-' :: ("01".toList))
    ∧ (NoopSpan.init none [] []).span_context.trace_flags = 0
    ∧ (NoopSpan.init none [] []).parent_span_id = none :=
  C10_propagation_flags _ (NoopSpan.init none [] []) [] none rfl

/-! ## Claim C4: retry exhaustion behaviour of `_send_with_retry` -/

theorem sendRetryAux_all_fail (m : Nat) (succeeds : Nat → Bool)
    (h : ∀ i, succeeds i = false) (n : Nat) :
    ∀ s, sendRetryAux m succeeds (List.range' s n) =
      (n, ((List.range' s n).filter (fun a => decide (a < m - 1))).map
        backoffDelay) := by
  induction n with
  | zero => intro s; rfl
  | succ k ih =>
    intro s
    rw [List.range'_succ]
    by_cases hs : s < m - 1 <;>
      simp [sendRetryAux, h s, hs, ih (s + 1)]

theorem filter_range_lt_pred (m : Nat) :
    (List.range m).filter (fun a => decide (a < m - 1)) =
      List.range (m - 1) := by
  cases m with
  | zero => rfl
  | succ k =>
    rw [List.range_succ, List.filter_append]
    have h1 : (List.range k).filter (fun a => decide (a < k + 1 - 1)) =
        List.range k := by
      apply List.filter_eq_self.mpr
      intro a ha
      simpa using List.mem_range.mp ha
    simp [h1]

/-- **C4.**  When every `send_payload` attempt fails with a (caught)
exception, `_send_with_retry` makes exactly `max_retries` underlying send
calls, sleeps `min(1.0 * 2 ** attempt, 10.0)` between consecutive attempts
(one delay per attempt number `0, ..., max_retries - 2`), the delays are
non-decreasing and capped at 10 seconds, and the function returns to its
caller (it is total here; in the source every exception is caught and at most
logged). -/
theorem C4_retry_exhaustion (max_retries : Nat) (succeeds : Nat → Bool)
    (h : ∀ i, succeeds i = false) :
    (_send_with_retry max_retries succeeds).1 = max_retries
    ∧ (_send_with_retry max_retries succeeds).2 =
        (List.range (max_retries - 1)).map backoffDelay
    ∧ List.Pairwise (· ≤ ·) (_send_with_retry max_retries succeeds).2
    ∧ ∀ d ∈ (_send_with_retry max_retries succeeds).2, d ≤ 10 := by
  have key : _send_with_retry max_retries succeeds =
      (max_retries, (List.range (max_retries - 1)).map backoffDelay) := by
    rw [_send_with_retry, List.range_eq_range',
      sendRetryAux_all_fail max_retries succeeds h max_retries 0,
      ← List.range_eq_range', filter_range_lt_pred]
  refine ⟨by rw [key], by rw [key], ?_, ?_⟩
  · rw [key]
    refine List.Pairwise.map _ (fun a b hab => ?_)
      (List.pairwise_lt_range (max_retries - 1))
    unfold backoffDelay
    exact min_le_min (by
      rw [one_mul, one_mul]
      exact pow_le_pow_right₀ (by norm_num) (le_of_lt hab)) (le_refl 10)
  · rw [key]
    intro d hd
    obtain ⟨a, _, rfl⟩ := List.mem_map.mp hd
    exact min_le_right _ _

/-- Witness for `C4_retry_exhaustion` with `max_retries = 3` and a send that
always fails. -/
theorem C4_retry_exhaustion_witness :
    (∀ i, (fun _ : Nat => false) i = false)
    ∧ (_send_with_retry 3 (fun _ => false)).1 = 3
    ∧ (_send_with_retry 3 (fun _ => false)).2 =
        (List.range (3 - 1)).map backoffDelay
    ∧ List.Pairwise (· ≤ ·) (_send_with_retry 3 (fun _ => false)).2
    ∧ ∀ d ∈ (_send_with_retry 3 (fun _ => false)).2, d ≤ 10 :=
  ⟨fun _ => rfl, C4_retry_exhaustion 3 (fun _ => false) (fun _ => rfl)⟩

/-! ## Claim C5: transport batching on the error queue -/

theorem send_error_below_threshold {α : Type} (t : BaseTransport α) (r : α)
    (h : (t._error_queue ++ [r]).length < t.max_batch_size) :
    t.send_error r = { t with _error_queue := t._error_queue ++ [r] } := by
  rw [BaseTransport.send_error]
  refine if_neg ?_
  dsimp only
  simp only [List.length_append, List.length_cons] at h ⊢
  omega

theorem send_error_at_threshold {α : Type} (t : BaseTransport α) (r : α)
    (h : (t._error_queue ++ [r]).length = t.max_batch_size)
    (hpos : 0 < t.max_batch_size) :
    t.send_error r =
      { t with _error_queue := [],
               sent_batches := t.sent_batches ++
                 [(("errors".toList), t._error_queue ++ [r])] } := by
  rw [BaseTransport.send_error]
  rw [if_pos (ge_of_eq h)]
  rw [BaseTransport._flush_errors]
  rw [if_neg (by
    show ¬ (t._error_queue ++ [r]).isEmpty = true
    simp)]
  dsimp only
  rw [List.drop_eq_nil_of_le (le_of_eq h), List.take_of_length_le (le_of_eq h)]

theorem send_error_no_flush {α : Type} (rs : List α) :
    ∀ t : BaseTransport α,
      t._error_queue.length + rs.length < t.max_batch_size →
      rs.foldl BaseTransport.send_error t =
        { t with _error_queue := t._error_queue ++ rs } := by
  induction rs with
  | nil => intro t _; simp
  | cons r rest ih =>
    intro t h
    simp only [List.length_cons] at h
    have step : BaseTransport.send_error t r =
        { t with _error_queue := t._error_queue ++ [r] } :=
      send_error_below_threshold t r
        (by simp only [List.length_append, List.length_cons, List.length_nil]
            omega)
    have ih' := ih { t with _error_queue := t._error_queue ++ [r] } (by
      show (t._error_queue ++ [r]).length + rest.length < t.max_batch_size
      simp only [List.length_append, List.length_cons, List.length_nil]
      omega)
    rw [List.foldl_cons, step, ih']
    show ({ t with _error_queue := (t._error_queue ++ [r]) ++ rest } :
      BaseTransport α) = _
    rw [List.append_assoc]
    rfl

/-- **C5.**  Starting from an empty error queue and an empty send log,
enqueuing `max_batch_size` errors one at a time triggers exactly one
automatic flush, whose single batch is exactly the enqueued records in
insertion (oldest-first) order, and leaves the queue empty; a subsequent
flush of the then-empty queue performs no send and does not change the
state. -/
theorem C5_batching_threshold {α : Type} (t₀ : BaseTransport α) (rs : List α)
    (hq : t₀._error_queue = []) (hs : t₀.sent_batches = [])
    (hpos : 0 < t₀.max_batch_size) (hlen : rs.length = t₀.max_batch_size) :
    (rs.foldl BaseTransport.send_error t₀).sent_batches =
        [(("errors".toList), rs)]
    ∧ (rs.foldl BaseTransport.send_error t₀)._error_queue = []
    ∧ (rs.foldl BaseTransport.send_error t₀)._flush_errors =
        rs.foldl BaseTransport.send_error t₀ := by
  have hne : rs ≠ [] := by
    intro hnil; rw [hnil] at hlen; simp at hlen; omega
  obtain ⟨body, last, rfl⟩ : ∃ body last, rs = body ++ [last] :=
    ⟨rs.dropLast, rs.getLast hne, (List.dropLast_append_getLast hne).symm⟩
  have hbody : body.length + 1 = t₀.max_batch_size := by
    simpa using hlen
  have h1 : body.foldl BaseTransport.send_error t₀ =
      { t₀ with _error_queue := body } := by
    rw [send_error_no_flush body t₀ (by rw [hq]; simp; omega), hq]
    rfl
  have hlast : BaseTransport.send_error
      ({ t₀ with _error_queue := body } : BaseTransport α) last =
      { t₀ with _error_queue := [],
                sent_batches := t₀.sent_batches ++
                  [(("errors".toList), body ++ [last])] } := by
    rw [send_error_at_threshold _ last (by simpa using hbody)
      (by show 0 < t₀.max_batch_size; omega)]
  have hfold : (body ++ [last]).foldl BaseTransport.send_error t₀ =
      { t₀ with _error_queue := [],
                sent_batches := t₀.sent_batches ++
                  [(("errors".toList), body ++ [last])] } := by
    rw [List.foldl_append, h1, List.foldl_cons, List.foldl_nil, hlast]
  rw [hfold, hs]
  refine ⟨rfl, rfl, ?_⟩
  rw [BaseTransport._flush_errors]
  rw [if_pos (by rfl)]

/-- Witness for `C5_batching_threshold`: batch size 2, enqueuing two
records. -/
theorem C5_batching_threshold_witness :
    (({ max_batch_size := 2 } : BaseTransport Nat)._error_queue = [])
    ∧ (({ max_batch_size := 2 } : BaseTransport Nat).sent_batches = [])
    ∧ ([10, 20].foldl BaseTransport.send_error
        ({ max_batch_size := 2 } : BaseTransport Nat)).sent_batches =
        [(("errors".toList), [10, 20])]
    ∧ ([10, 20].foldl BaseTransport.send_error
        ({ max_batch_size := 2 } : BaseTransport Nat))._error_queue = []
    ∧ ([10, 20].foldl BaseTransport.send_error
        ({ max_batch_size := 2 } : BaseTransport Nat))._flush_errors =
        [10, 20].foldl BaseTransport.send_error
          ({ max_batch_size := 2 } : BaseTransport Nat) :=
  ⟨rfl, rfl, C5_batching_threshold _ [10, 20] rfl rfl (by norm_num) rfl⟩

/-! ## Claim C6: the breadcrumb ring buffer keeps the last `K` insertions -/

theorem ringTrim_eq_drop {α : Type} (m : Nat) :
    ∀ l : List α, ringTrim m l = l.drop (l.length - m) := by
  intro l
  induction l with
  | nil => simp [ringTrim]
  | cons x rest ih =>
    rw [ringTrim]
    by_cases hm : m < (x :: rest).length
    · rw [if_pos hm, ih]
      have : (x :: rest).length - m = (rest.length - m) + 1 := by
        simp only [List.length_cons] at hm ⊢
        omega
      rw [this, List.drop_succ_cons]
    · rw [if_neg hm]
      have : (x :: rest).length - m = 0 := by
        simp only [List.length_cons] at hm ⊢
        omega
      rw [this, List.drop_zero]

theorem ringTrim_ringTrim_append {α : Type} (K : Nat) (x y : List α) :
    ringTrim K (ringTrim K x ++ y) = ringTrim K (x ++ y) := by
  rw [ringTrim_eq_drop, ringTrim_eq_drop, ringTrim_eq_drop]
  by_cases hnK : x.length ≤ K
  · have h0 : x.length - K = 0 := by omega
    rw [h0, List.drop_zero]
  · have hlen : (x.drop (x.length - K)).length = K := by
      rw [List.length_drop]
      omega
    by_cases hmK : K ≤ y.length
    · have i1 : (x.drop (x.length - K) ++ y).length - K =
          (x.drop (x.length - K)).length + (y.length - K) := by
        rw [List.length_append, hlen]
        omega
      have i2 : (x ++ y).length - K = x.length + (y.length - K) := by
        rw [List.length_append]
        omega
      rw [i1, List.drop_append, i2, List.drop_append]
    · have i1 : (x.drop (x.length - K) ++ y).length - K = y.length := by
        rw [List.length_append, hlen]
        omega
      have i2 : (x ++ y).length - K = (x.length + y.length) - K := by
        rw [List.length_append]
      have hy1 : y.length ≤ (x.drop (x.length - K)).length + 0 := by
        rw [hlen]
        omega
      have hy2 : (x.length + y.length) - K ≤ x.length := by omega
      rw [i1, List.drop_append_of_le_length (by rw [hlen]; omega), i2,
        List.drop_append_of_le_length hy2, List.drop_drop]
      congr 2
      omega

/-- Folding `add_breadcrumb` over a nonempty list of breadcrumbs (each
carrying its own clock reading) trims the concatenation once, and never
changes the capacity. -/
theorem fold_add_breadcrumb (bs : List Breadcrumb) :
    ∀ s : Scope, bs ≠ [] →
      (bs.foldl (fun sc b => sc.add_breadcrumb b.type b.category b.message
        b.data b.level b.timestamp) s).breadcrumbs =
          ringTrim s._max_breadcrumbs (s.breadcrumbs ++ bs)
      ∧ (bs.foldl (fun sc b => sc.add_breadcrumb b.type b.category b.message
          b.data b.level b.timestamp) s)._max_breadcrumbs =
            s._max_breadcrumbs := by
  induction bs with
  | nil => intro s h; exact absurd rfl h
  | cons b rest ih =>
    intro s _
    cases rest with
    | nil => exact ⟨rfl, rfl⟩
    | cons b' rest' =>
      have step : s.add_breadcrumb b.type b.category b.message b.data b.level
          b.timestamp =
          { s with breadcrumbs :=
              ringTrim s._max_breadcrumbs (s.breadcrumbs ++ [b]) } := rfl
      obtain ⟨ih1, ih2⟩ := ih (s.add_breadcrumb b.type b.category b.message
        b.data b.level b.timestamp) (by simp)
      constructor
      · rw [List.foldl_cons, ih1, step]
        dsimp only
        rw [ringTrim_ringTrim_append, List.append_assoc]
        rfl
      · rw [List.foldl_cons, ih2, step]

/-- **C6.**  For any scope and any sequence of `N` breadcrumb insertions with
`N` larger than the capacity `K`, the final buffer holds exactly `K`
breadcrumbs: the last `K` inserted, in insertion order. -/
theorem C6_breadcrumb_ring_buffer (s₀ : Scope) (bs : List Breadcrumb)
    (hK : s₀._max_breadcrumbs < bs.length) :
    (bs.foldl (fun sc b => sc.add_breadcrumb b.type b.category b.message
      b.data b.level b.timestamp) s₀).breadcrumbs =
        bs.drop (bs.length - s₀._max_breadcrumbs)
    ∧ (bs.foldl (fun sc b => sc.add_breadcrumb b.type b.category b.message
        b.data b.level b.timestamp) s₀).breadcrumbs.length =
          s₀._max_breadcrumbs := by
  have hne : bs ≠ [] := by
    intro h
    rw [h] at hK
    simp at hK
  obtain ⟨h1, _⟩ := fold_add_breadcrumb bs s₀ hne
  have key : ringTrim s₀._max_breadcrumbs (s₀.breadcrumbs ++ bs) =
      bs.drop (bs.length - s₀._max_breadcrumbs) := by
    rw [ringTrim_eq_drop]
    have : (s₀.breadcrumbs ++ bs).length - s₀._max_breadcrumbs =
        s₀.breadcrumbs.length + (bs.length - s₀._max_breadcrumbs) := by
      rw [List.length_append]
      omega
    rw [this, List.drop_append]
  refine ⟨h1.trans key, ?_⟩
  rw [h1, key, List.length_drop]
  omega

/-- Witness for `C6_breadcrumb_ring_buffer`: capacity 1, two insertions. -/
theorem C6_breadcrumb_ring_buffer_witness :
    (({ _max_breadcrumbs := 1 } : Scope)._max_breadcrumbs <
        ([⟨.http, "a".toList, "t1".toList, none, none, .info⟩,
          ⟨.ui, "b".toList, "t2".toList, none, none, .info⟩] :
          List Breadcrumb).length)
    ∧ (([⟨.http, "a".toList, "t1".toList, none, none, .info⟩,
         ⟨.ui, "b".toList, "t2".toList, none, none, .info⟩] :
         List Breadcrumb).foldl (fun sc b => sc.add_breadcrumb b.type
           b.category b.message b.data b.level b.timestamp)
         ({ _max_breadcrumbs := 1 } : Scope)).breadcrumbs =
        ([⟨.http, "a".toList, "t1".toList, none, none, .info⟩,
          ⟨.ui, "b".toList, "t2".toList, none, none, .info⟩] :
          List Breadcrumb).drop 1 :=
  ⟨by decide, (C6_breadcrumb_ring_buffer { _max_breadcrumbs := 1 } _
    (by decide)).1⟩

/-! ## Claim C8: ending a child restores the parent as the active span -/

theorem start_span_none_op_eq (t : Tracer) (name : Str) (kind : SpanKind)
    (attributes : Option Attrs) (r : ℚ) (ftid fsid : Str) (now : Nat)
    (hs : t._should_sample r = true) :
    t.start_span name none kind attributes none r ftid fsid now =
      (Span.impl (SpanImpl.init name kind (t.current_context.map (·.trace_id))
        (t.current_context.map (·.span_id)) attributes ftid fsid now),
       { t with
          _active_spans := dictSet fsid
            (SpanImpl.init name kind (t.current_context.map (·.trace_id))
              (t.current_context.map (·.span_id)) attributes ftid fsid now)
            t._active_spans
          current_context := some (SpanImpl.init name kind
            (t.current_context.map (·.trace_id))
            (t.current_context.map (·.span_id)) attributes ftid fsid
            now).span_context }) := by
  unfold Tracer.start_span
  rw [hs]
  rfl

theorem on_span_end_active (t : Tracer) (span : SpanImpl) :
    (t.on_span_end span)._active_spans =
      dictPop span._span_id t._active_spans := rfl

theorem on_span_end_current_of_parent (t : Tracer) (span : SpanImpl)
    (pid : Str) (hpid : span._parent_span_id = some pid)
    (hne : pid.isEmpty = false) :
    (t.on_span_end span).current_context =
      match dictGet? pid (dictPop span._span_id t._active_spans) with
      | some parent_span => some parent_span.span_context
      | none => none := by
  unfold Tracer.on_span_end
  rw [hpid]
  simp [hne]

theorem on_span_end_current_of_no_parent (t : Tracer) (span : SpanImpl)
    (hpid : span._parent_span_id = none) :
    (t.on_span_end span).current_context = none := by
  unfold Tracer.on_span_end
  rw [hpid]

/-- **C8.**  From a fresh tracer (empty registry, no ambient context) that
samples, starting a parent span and then a child span under it, calling
`on_span_end` on the child removes it from the registry and makes
`get_active_span` return the parent; a subsequent `on_span_end` on the parent
leaves `get_active_span` with no active span.  `sidP ≠ sidC` is the freshness
of the generated span ids, `sidP ≠ []` their nonemptiness (the generators
return 16 hex characters). -/
theorem C8_active_span_restoration (t₀ : Tracer) (hrate : 1 ≤ t₀.sample_rate)
    (hactive : t₀._active_spans = []) (hctx : t₀.current_context = none)
    (nameP nameC : Str) (r₁ r₂ : ℚ) (ftidP ftidC sidP sidC : Str)
    (now₁ now₂ : Nat) (hsid : sidP ≠ sidC) (hP : sidP ≠ []) :
    ∃ pS cS : SpanImpl,
      (t₀.start_span nameP none .internal none none r₁ ftidP sidP now₁).1 =
        Span.impl pS
      ∧ ((t₀.start_span nameP none .internal none none r₁ ftidP sidP
          now₁).2.start_span nameC none .internal none none r₂ ftidC sidC
          now₂).1 = Span.impl cS
      ∧ (((t₀.start_span nameP none .internal none none r₁ ftidP sidP
          now₁).2.start_span nameC none .internal none none r₂ ftidC sidC
          now₂).2.on_span_end cS).get_active_span = some pS
      ∧ ((((t₀.start_span nameP none .internal none none r₁ ftidP sidP
          now₁).2.start_span nameC none .internal none none r₂ ftidC sidC
          now₂).2.on_span_end cS).on_span_end pS).get_active_span = none := by
  have hs1 : t₀._should_sample r₁ = true := by
    unfold Tracer._should_sample
    rw [if_pos hrate]
  have e1 := start_span_none_op_eq t₀ nameP .internal none r₁ ftidP sidP now₁
    hs1
  rw [hctx] at e1
  set pS : SpanImpl := SpanImpl.init nameP .internal
    (Option.map (·.trace_id) (none : Option SpanContext))
    (Option.map (·.span_id) (none : Option SpanContext)) none ftidP sidP now₁
    with hpS
  set t₁ : Tracer := { t₀ with
    _active_spans := dictSet sidP pS t₀._active_spans
    current_context := some pS.span_context } with ht₁
  have hs2 : t₁._should_sample r₂ = true := by
    unfold Tracer._should_sample
    rw [if_pos (by exact hrate)]
  have e2 := start_span_none_op_eq t₁ nameC .internal none r₂ ftidC sidC now₂
    hs2
  have hcur₁ : t₁.current_context = some pS.span_context := rfl
  rw [hcur₁] at e2
  set cS : SpanImpl := SpanImpl.init nameC .internal
    (Option.map (·.trace_id) (some pS.span_context))
    (Option.map (·.span_id) (some pS.span_context)) none ftidC sidC now₂
    with hcS
  refine ⟨pS, cS, by rw [e1], by rw [e1]; exact congrArg Prod.fst e2, ?_, ?_⟩
  · rw [e1]
    show ((t₁.start_span nameC none .internal none none r₂ ftidC sidC
      now₂).2.on_span_end cS).get_active_span = some pS
    rw [e2]
    unfold Tracer.get_active_span
    rw [on_span_end_current_of_parent _ cS sidP rfl
      (by cases sidP with | nil => exact absurd rfl hP | cons c cs => rfl)]
    rw [on_span_end_active]
    have hpop : dictPop cS._span_id
        (({ t₁ with
            _active_spans := dictSet sidC cS t₁._active_spans
            current_context := some cS.span_context } :
          Tracer))._active_spans = [(sidP, pS)] := by
      show dictPop sidC (dictSet sidC cS (dictSet sidP pS t₀._active_spans)) =
        [(sidP, pS)]
      rw [hactive]
      simp [dictSet, dictPop, hsid, Ne.symm hsid]
    rw [hpop]
    simp [dictGet?]
    rfl
  · rw [e1]
    show (((t₁.start_span nameC none .internal none none r₂ ftidC sidC
      now₂).2.on_span_end cS).on_span_end pS).get_active_span = none
    rw [e2]
    unfold Tracer.get_active_span
    rw [on_span_end_current_of_no_parent _ pS rfl]

/-- Witness for `C8_active_span_restoration` at a concrete tracer. -/
theorem C8_active_span_restoration_witness :
    ∃ pS cS : SpanImpl,
      (({ service_id := [], deployment_id := [], sample_rate := 1 } :
          Tracer).start_span ("p".toList) none .internal none none 0
          ("t1".toList) ("s1".toList) 1).1 = Span.impl pS
      ∧ ((({ service_id := [], deployment_id := [], sample_rate := 1 } :
          Tracer).start_span ("p".toList) none .internal none none 0
          ("t1".toList) ("s1".toList) 1).2.start_span ("c".toList) none
          .internal none none 0 ("t2".toList) ("s2".toList) 2).1 = Span.impl cS
      ∧ (((({ service_id := [], deployment_id := [], sample_rate := 1 } :
          Tracer).start_span ("p".toList) none .internal none none 0
          ("t1".toList) ("s1".toList) 1).2.start_span ("c".toList) none
          .internal none none 0 ("t2".toList) ("s2".toList)
          2).2.on_span_end cS).get_active_span = some pS
      ∧ ((((({ service_id := [], deployment_id := [], sample_rate := 1 } :
          Tracer).start_span ("p".toList) none .internal none none 0
          ("t1".toList) ("s1".toList) 1).2.start_span ("c".toList) none
          .internal none none 0 ("t2".toList) ("s2".toList)
          2).2.on_span_end cS).on_span_end pS).get_active_span = none :=
  C8_active_span_restoration _ (by norm_num) rfl rfl ("p".toList) ("c".toList)
    0 0 ("t1".toList) ("t2".toList) ("s1".toList) ("s2".toList) 1 2
    (by decide) (by decide)

/-! ## Claim C9: what `Scope.clone` does and does not isolate -/

/-- **C9, counterexample.**  The claim fails: `clone()` copies containers
shallowly (`dict(...)`/`list(...)`), so a breadcrumb's `data` dict stays
shared, and the Python mutation `clone.breadcrumbs[0].data["k"] = 2`
(performed through the clone) changes the source scope's observable state. -/
theorem C9_clone_deep_copy_counterexample :
    observeScope (sharedDataScope.clone.write_breadcrumb_data sharedDataHeap 0
        ("k".toList) (Value.int 2)) sharedDataScope ≠
      observeScope sharedDataHeap sharedDataScope := by
  decide

/-- **C9, amended.**  `clone()` copies the top-level containers into a new
scope with the same breadcrumb capacity and identical observable state, and
container-level mutations (the `Scope` methods themselves) through either of
the two scopes leave the other scope's observable state unchanged — the heap
of nested mutable dicts is untouched by them.  (Nested data reachable through
copied references remains shared; see the counterexample.) -/
theorem C9_clone_container_level_isolation (s : Scope) (h : Heap)
    (op : ScopeOp) :
    (s.clone)._max_breadcrumbs = s._max_breadcrumbs
    ∧ observeScope h s.clone = observeScope h s
    ∧ (op.apply s.clone h).2 = h
    ∧ observeScope (op.apply s.clone h).2 s = observeScope h s
    ∧ observeScope (op.apply s h).2 s.clone = observeScope h s.clone := by
  have happ : ∀ sc : Scope, (op.apply sc h).2 = h := by
    intro sc
    cases op <;> rfl
  exact ⟨rfl, rfl, happ s.clone, by rw [happ s.clone], by rw [happ s]⟩

/-! ## Claim C3: which headers `parse_traceparent` rejects -/

/-- **C3, evaluation at the failing input.**  The header
`"00-" ++ 32 hex digits ++ "\n" ++ "-" ++ 16 hex digits ++ "-01"` has a
trace-id field that is not exactly 32 hex digits (33 characters, ending in a
newline), yet `parse_traceparent` accepts it and returns a context with that
33-character trace id: Python's `$` anchor in
`re.match(r"^[0-9a-f]{32}$", ...)` also matches just before a trailing
newline. -/
theorem C3_parse_accepts_trailing_newline :
    parse_traceparent
      ("00-aaaaaaaaaaaaaaaaaaaaaaaaaaaaaaaa\n-bbbbbbbbbbbbbbbb-01".toList) =
      some { trace_id := ("aaaaaaaaaaaaaaaaaaaaaaaaaaaaaaaa\n".toList),
             span_id := ("bbbbbbbbbbbbbbbb".toList), trace_flags := 1,
             trace_state := none }
    ∧ ¬ (("aaaaaaaaaaaaaaaaaaaaaaaaaaaaaaaa\n".toList).length = 32
         ∧ ("aaaaaaaaaaaaaaaaaaaaaaaaaaaaaaaa\n".toList).all
             isHexDigitChar = true) := by
  exact ⟨by decide, by decide⟩

/-! ## Claim C2: round trip of the traceparent codec -/

theorem ne_of_hex_of_not_hex {c d : Char} (h : isHexDigitChar c = true)
    (hd : isHexDigitChar d = false) : c ≠ d := by
  intro he
  subst he
  exact absurd (h.symm.trans hd) (by decide)

theorem not_ws_of_hex {c : Char} (h : isHexDigitChar c = true) :
    isPyWhitespace c = false := by
  by_contra hw
  rw [Bool.not_eq_false] at hw
  simp only [isPyWhitespace, Bool.or_eq_true, decide_eq_true_eq] at hw
  rcases hw with ((((h1 | h1) | h1) | h1) | h1) | h1 <;> subst h1 <;>
    exact absurd h (by decide)

theorem hex_of_lower {c : Char} (h : isLowerHexDigit c = true) :
    isHexDigitChar c = true := by
  simp only [isLowerHexDigit, Bool.or_eq_true, Bool.and_eq_true,
    decide_eq_true_eq] at h
  simp only [isHexDigitChar, Bool.or_eq_true, Bool.and_eq_true,
    decide_eq_true_eq]
  tauto

theorem pyLowerChar_of_lower {c : Char} (h : isLowerHexDigit c = true) :
    pyLowerChar c = c := by
  simp only [isLowerHexDigit, Bool.or_eq_true, Bool.and_eq_true,
    decide_eq_true_eq] at h
  unfold pyLowerChar
  rw [if_neg]
  simp only [Bool.and_eq_true, decide_eq_true_eq, not_and, not_le]
  intro hA
  have e0 : '0'.toNat = 48 := by decide
  have e9 : '9'.toNat = 57 := by decide
  have ea : 'a'.toNat = 97 := by decide
  have ef : 'f'.toNat = 102 := by decide
  have eA : 'A'.toNat = 65 := by decide
  have eZ : 'Z'.toNat = 90 := by decide
  rw [e0, e9, ea, ef] at h
  rw [eA] at hA
  rw [eZ]
  omega

theorem pyLower_of_lower {l : Str} (h : ∀ c ∈ l, isLowerHexDigit c = true) :
    pyLower l = l := by
  induction l with
  | nil => rfl
  | cons c rest ih =>
    unfold pyLower at ih ⊢
    rw [List.map_cons, pyLowerChar_of_lower (h c (by simp)),
      ih (fun d hd => h d (by simp [hd]))]

theorem dropWhile_eq_self_of_forall {p : Char → Bool} {l : Str}
    (h : ∀ c ∈ l, p c = false) : l.dropWhile p = l := by
  cases l with
  | nil => rfl
  | cons c rest => rw [List.dropWhile_cons, h c (by simp), if_neg (by simp)]

theorem pyStrip_eq_self {l : Str} (h : ∀ c ∈ l, isPyWhitespace c = false) :
    pyStrip l = l := by
  unfold pyStrip
  rw [dropWhile_eq_self_of_forall h,
    dropWhile_eq_self_of_forall (fun c hc => h c (List.mem_reverse.mp hc)),
    List.reverse_reverse]

theorem hexChar_hex {m : Nat} (h : m < 16) :
    isHexDigitChar (hexChar m) = true := by
  interval_cases m <;> decide

theorem hexDigitVal_hexChar {m : Nat} (h : m < 16) :
    hexDigitVal (hexChar m) = m := by
  interval_cases m <;> decide

theorem natToHex_ne_nil (n : Nat) : natToHex n ≠ [] := by
  rw [natToHex]
  split <;> simp

theorem natToHex_all_hex (n : Nat) :
    ∀ c ∈ natToHex n, isHexDigitChar c = true := by
  induction n using Nat.strong_induction_on with
  | _ n ih =>
    rw [natToHex]
    split
    · intro c hc
      rw [List.mem_singleton] at hc
      subst hc
      exact hexChar_hex (by omega)
    · intro c hc
      rcases List.mem_append.mp hc with hm | hm
      · exact ih (n / 16) (Nat.div_lt_self (by omega) (by omega)) c hm
      · rw [List.mem_singleton] at hm
        subst hm
        exact hexChar_hex (Nat.mod_lt _ (by omega))

theorem foldl_hexDigitVal_natToHex (n : Nat) :
    ∀ acc, (natToHex n).foldl (fun a c => a * 16 + hexDigitVal c) acc =
      acc * 16 ^ (natToHex n).length + n := by
  induction n using Nat.strong_induction_on with
  | _ n ih =>
    intro acc
    rw [natToHex]
    split
    · rename_i h
      simp only [List.foldl_cons, List.foldl_nil, List.length_singleton,
        pow_one, hexDigitVal_hexChar h]
    · rename_i h
      rw [List.foldl_append]
      simp only [List.foldl_cons, List.foldl_nil, List.length_append,
        List.length_singleton]
      rw [ih (n / 16) (Nat.div_lt_self (by omega) (by omega)) acc,
        hexDigitVal_hexChar (Nat.mod_lt _ (by omega)), pow_succ]
      set q := n / 16 with hq
      set r := n % 16 with hr
      have hdm : 16 * q + r = n := Nat.div_add_mod n 16
      rw [← hdm]
      ring

theorem hexDigitsUndAux_of_all_hex (l : Str) :
    ∀ acc, l.all isHexDigitChar = true →
      hexDigitsUndAux acc l =
        some (l.foldl (fun a c => a * 16 + hexDigitVal c) acc) := by
  induction l with
  | nil => intro acc _; rfl
  | cons c rest ih =>
    intro acc hall
    rw [List.all_cons, Bool.and_eq_true] at hall
    simp only [hexDigitsUndAux]
    rw [if_neg (ne_of_hex_of_not_hex hall.1 (by decide)), if_pos hall.1,
      ih _ hall.2, List.foldl_cons]

theorem pyIntHexDigits_of_all_hex (l : Str) (hne : l ≠ [])
    (hall : l.all isHexDigitChar = true) :
    pyIntHexDigits l =
      some (l.foldl (fun a c => a * 16 + hexDigitVal c) 0) := by
  cases l with
  | nil => exact absurd rfl hne
  | cons c rest =>
    rw [List.all_cons, Bool.and_eq_true] at hall
    simp only [pyIntHexDigits]
    rw [if_pos hall.1,
      hexDigitsUndAux_of_all_hex (c :: rest) 0
        (by rw [List.all_cons, Bool.and_eq_true]; exact hall)]

theorem foldl_hex_replicate_zero (k : Nat) (s : Str) :
    (List.replicate k '0' ++ s).foldl (fun a c => a * 16 + hexDigitVal c) 0 =
      s.foldl (fun a c => a * 16 + hexDigitVal c) 0 := by
  induction k with
  | zero => rfl
  | succ m ih =>
    have h0 : (0 : Nat) * 16 + hexDigitVal '0' = 0 := by decide
    rw [List.replicate_succ, List.cons_append, List.foldl_cons, h0, ih]

theorem leftPad_natToHex_all_hex (k m : Nat) :
    (leftPad '0' k (natToHex m)).all isHexDigitChar = true := by
  rw [List.all_eq_true]
  intro c hc
  rcases List.mem_append.mp hc with hm | hm
  · rw [List.eq_of_mem_replicate hm]
    decide
  · exact natToHex_all_hex m c hm

theorem leftPad_natToHex_ne_nil (k m : Nat) :
    leftPad '0' k (natToHex m) ≠ [] := by
  intro hemp
  rcases List.append_eq_nil.mp hemp with ⟨_, h2⟩
  exact natToHex_ne_nil m h2

theorem pyIntHexUnsigned_leftPad_natToHex (m : Nat) :
    pyIntHexUnsigned (leftPad '0' 2 (natToHex m)) = some m := by
  have hallhex := leftPad_natToHex_all_hex 2 m
  have hval : (leftPad '0' 2 (natToHex m)).foldl
      (fun a c => a * 16 + hexDigitVal c) 0 = m := by
    unfold leftPad
    rw [foldl_hex_replicate_zero, foldl_hexDigitVal_natToHex m 0, zero_mul,
      zero_add]
  obtain ⟨d, ds, hds⟩ : ∃ d ds, natToHex m = d :: ds := by
    cases hnat : natToHex m with
    | nil => exact absurd hnat (natToHex_ne_nil m)
    | cons d ds => exact ⟨d, ds, rfl⟩
  obtain ⟨c0, c1, r, hpad⟩ :
      ∃ c0 c1 r, leftPad '0' 2 (natToHex m) = c0 :: c1 :: r := by
    unfold leftPad
    rw [hds]
    cases ds with
    | nil => exact ⟨'0', d, [], rfl⟩
    | cons e es =>
      refine ⟨d, e, es, ?_⟩
      have hlen : 2 - (d :: e :: es).length = 0 := by
        simp only [List.length_cons]
        omega
      rw [hlen, List.replicate_zero, List.nil_append]
  have hc1 : isHexDigitChar c1 = true := by
    rw [hpad] at hallhex
    rw [List.all_cons, List.all_cons, Bool.and_eq_true, Bool.and_eq_true]
      at hallhex
    exact hallhex.2.1
  rw [hpad] at hallhex hval ⊢
  simp only [pyIntHexUnsigned]
  rw [if_neg (by
    simp [ne_of_hex_of_not_hex hc1 (by decide : isHexDigitChar 'x' = false),
      ne_of_hex_of_not_hex hc1 (by decide : isHexDigitChar 'X' = false)])]
  rw [pyIntHexDigits_of_all_hex _ (by simp) hallhex, hval]

theorem pyIntHex_of_all_hex (l : Str) (hne : l ≠ [])
    (hall : l.all isHexDigitChar = true) :
    pyIntHex l = (pyIntHexUnsigned l).map Int.ofNat := by
  cases l with
  | nil => exact absurd rfl hne
  | cons c rest =>
    have hc : isHexDigitChar c = true := by
      rw [List.all_cons, Bool.and_eq_true] at hall
      exact hall.1
    have hws : ∀ d ∈ c :: rest, isPyWhitespace d = false := by
      intro d hd
      rw [List.all_eq_true] at hall
      exact not_ws_of_hex (hall d hd)
    simp only [pyIntHex]
    rw [pyStrip_eq_self hws]
    dsimp only
    rw [if_neg (ne_of_hex_of_not_hex hc (by decide)),
      if_neg (ne_of_hex_of_not_hex hc (by decide))]

theorem pyIntHex_formatHex02 {i : Int} (h0 : 0 ≤ i) :
    pyIntHex (formatHex02 i) = some i := by
  unfold formatHex02
  rw [if_neg (not_lt.mpr h0)]
  rw [pyIntHex_of_all_hex _ (leftPad_natToHex_ne_nil 2 i.toNat)
      (leftPad_natToHex_all_hex 2 i.toNat),
    pyIntHexUnsigned_leftPad_natToHex]
  simp [Int.toNat_of_nonneg h0]

theorem intercalate_four (a b c d : Str) :
    ['-'].intercalate [a, b, c, d] =
      a ++ '-' :: (b ++ '-' :: (c ++ '-' :: d)) := by
  simp [List.intercalate]

theorem create_traceparent_eq_intercalate (ctx : SpanContext) :
    create_traceparent ctx =
      ['-'].intercalate [("00".toList), ctx.trace_id, ctx.span_id,
        formatHex02 ctx.trace_flags] := by
  rw [intercalate_four]
  unfold create_traceparent
  simp [List.append_assoc]

/-- **C2.**  Round-trip law of the codec: for every valid `SpanContext` —
trace id of 32 lowercase hex digits, not all zero; span id of 16 lowercase
hex digits, not all zero; absent vendor state; non-negative flags (the flags
field is a bit set: every value the source constructs is `0x00` or `0x01`) —
decoding the encoded traceparent header returns the original context. -/
theorem C2_traceparent_round_trip (ctx : SpanContext)
    (htid_len : ctx.trace_id.length = 32)
    (htid_hex : ∀ c ∈ ctx.trace_id, isLowerHexDigit c = true)
    (htid_nz : ctx.trace_id ≠ List.replicate 32 '0')
    (hsid_len : ctx.span_id.length = 16)
    (hsid_hex : ∀ c ∈ ctx.span_id, isLowerHexDigit c = true)
    (hsid_nz : ctx.span_id ≠ List.replicate 16 '0')
    (hflags : 0 ≤ ctx.trace_flags)
    (hstate : ctx.trace_state = none) :
    parse_traceparent (create_traceparent ctx) = some ctx := by
  have hfl_hex : ∀ c ∈ formatHex02 ctx.trace_flags, isHexDigitChar c = true := by
    intro c hc
    unfold formatHex02 at hc
    rw [if_neg (not_lt.mpr hflags)] at hc
    have := leftPad_natToHex_all_hex 2 ctx.trace_flags.toNat
    rw [List.all_eq_true] at this
    exact this c hc
  have htid_hexF : ∀ c ∈ ctx.trace_id, isHexDigitChar c = true :=
    fun c hc => hex_of_lower (htid_hex c hc)
  have hsid_hexF : ∀ c ∈ ctx.span_id, isHexDigitChar c = true :=
    fun c hc => hex_of_lower (hsid_hex c hc)
  have hsplit : (pyStrip (create_traceparent ctx)).splitOn '-' =
      [("00".toList), ctx.trace_id, ctx.span_id,
        formatHex02 ctx.trace_flags] := by
    have hnows : ∀ c ∈ create_traceparent ctx, isPyWhitespace c = false := by
      intro ch hc
      rw [create_traceparent_eq_intercalate ctx, intercalate_four] at hc
      simp only [List.mem_append, List.mem_cons] at hc
      rcases hc with h | h | h | h | h | h | h
      · have h0 : ch = '0' := by simpa using h
        subst h0; decide
      · subst h; decide
      · exact not_ws_of_hex (htid_hexF ch h)
      · subst h; decide
      · exact not_ws_of_hex (hsid_hexF ch h)
      · subst h; decide
      · exact not_ws_of_hex (hfl_hex ch h)
    rw [pyStrip_eq_self hnows, create_traceparent_eq_intercalate]
    refine List.splitOn_intercalate _ '-' ?_ (by simp)
    intro l hl
    simp only [List.mem_cons, List.not_mem_nil] at hl
    rcases hl with h | h | h | h
    · subst h; decide
    · subst h
      intro hmem
      exact absurd (htid_hexF '-' hmem) (by decide)
    · subst h
      intro hmem
      exact absurd (hsid_hexF '-' hmem) (by decide)
    · rcases h with h | h
      · subst h
        intro hmem
        exact absurd (hfl_hex '-' hmem) (by decide)
      · cases h
  have hne : (create_traceparent ctx).isEmpty = false := by
    unfold create_traceparent
    rfl
  unfold parse_traceparent
  rw [hne]
  simp only [Bool.false_eq_true, if_false]
  rw [hsplit]
  dsimp only
  rw [if_neg (by intro hne00; exact hne00 rfl)]
  rw [if_neg (by
    intro hnm
    apply hnm
    unfold pyMatchHexN
    rw [← htid_len, List.take_length]
    simp only [htid_len, Bool.and_eq_true, Bool.or_eq_true, decide_eq_true_eq]
    refine ⟨⟨trivial, ?_⟩, Or.inl trivial⟩
    rw [List.all_eq_true]
    intro c hc
    exact htid_hexF c hc)]
  rw [if_neg htid_nz]
  rw [if_neg (by
    intro hnm
    apply hnm
    unfold pyMatchHexN
    rw [← hsid_len, List.take_length]
    simp only [hsid_len, Bool.and_eq_true, Bool.or_eq_true, decide_eq_true_eq]
    refine ⟨⟨trivial, ?_⟩, Or.inl trivial⟩
    rw [List.all_eq_true]
    intro c hc
    exact hsid_hexF c hc)]
  rw [if_neg hsid_nz]
  rw [pyIntHex_formatHex02 hflags]
  rw [pyLower_of_lower htid_hex, pyLower_of_lower hsid_hex]
  cases ctx with
  | mk tid sid fl st =>
    simp only at hstate
    rw [hstate]

/-- Witness for `C2_traceparent_round_trip` at a concrete context. -/
theorem C2_traceparent_round_trip_witness :
    parse_traceparent (create_traceparent
      { trace_id := ("4bf92f3577b34da6a3ce929d0e0e4736".toList),
        span_id := ("00f067aa0ba902b7".toList),
        trace_flags := 1, trace_state := none }) =
      some { trace_id := ("4bf92f3577b34da6a3ce929d0e0e4736".toList),
             span_id := ("00f067aa0ba902b7".toList),
             trace_flags := 1, trace_state := none } :=
  C2_traceparent_round_trip _ (by decide) (by decide) (by decide) (by decide)
    (by decide) (by decide) (by decide) rfl

end Syntra
